import Mathlib

/-!
Verification of `go/credentialprovider/main.go`.

A shallow embedding of the LocalStack credentials provider and of the SQS
demonstration script, followed by the theorems that settle the claims made
about them.

Conventions of the embedding:

* a Go `string` is a Lean `String`; `len(s)` is `String.utf8ByteSize`;
* a Go `*string` is an `Option String` (`nil` is `none`, `aws.String s` is `some s`);
* a Go `(T, error)` result is either a pair `T × Option GoError` (when the
  source returns both parts) or an `Except GoError T`;
* a `panic` is an explicit outcome of the function that raises it;
* types and functions of the AWS SDK (which is not part of the repository)
  are modelled by the fields and by the behaviour the repository relies on.
-/

namespace CredentialProvider

/-! ## Constants (lines 10-21) -/

def AwsLocalEndpoint : String := "http://localhost:4566"
def AwsLocalCredentialsName : String := "AwsLocalCredentials"
def AwsLocalDefaultRegion : String := "us-east-1"
def AwsLocalAccountId : String := "000000000000"
def AwsLocalAccessKey : String := "test"
def AwsLocalSecret : String := "test"

/-- The package-level variable `ErrorAwsLocalCredentialsEmpty`; nothing in the
program assigns to it after its initialisation. -/
def ErrorAwsLocalCredentialsEmpty : String := "awslocal credentials are empty"

/-! ## SDK data types the provider works with -/

/-- Go `time.Time`, as seconds and nanoseconds counted from the zero time
(January 1, year 1, 00:00:00 UTC). -/
structure Time where
  sec : Int
  nsec : Nat
  deriving DecidableEq, Repr

/-- The zero value of `time.Time`. -/
def Time.zero : Time := { sec := 0, nsec := 0 }

/-- Go `context.Context`: the two root contexts and contexts derived from a
parent (by a value, a deadline or a cancellation, identified by a tag). -/
inductive Context where
  | Background : Context
  | TODO : Context
  | derived (parent : Context) (tag : Nat) : Context
  deriving DecidableEq, Repr

/-- The SDK struct `aws.Credentials`. -/
structure aws.Credentials where
  AccessKeyID : String
  SecretAccessKey : String
  SessionToken : String
  Source : String
  CanExpire : Bool
  Expires : Time
  AccountID : String
  deriving DecidableEq, Repr

/-- The zero value of `aws.Credentials` (what `aws.Credentials{}` denotes). -/
def aws.Credentials.zero : aws.Credentials :=
  { AccessKeyID := "", SecretAccessKey := "", SessionToken := "", Source := "",
    CanExpire := false, Expires := Time.zero, AccountID := "" }

/-- A Go `string`. -/
abbrev GoString : Type := String

/-- The SDK helper `aws.String`: a pointer to a copy of the string. -/
def aws.String (s : GoString) : Option GoString := some s

/-! ## Errors (lines 108-113) -/

/-- The empty struct `AwsLocalCredentialsEmptyError` (line 109). -/
structure AwsLocalCredentialsEmptyError where
  deriving DecidableEq, Repr

/-- The method `(*AwsLocalCredentialsEmptyError).Error` (lines 111-113). -/
def AwsLocalCredentialsEmptyError.Error (_e : AwsLocalCredentialsEmptyError) : String :=
  ErrorAwsLocalCredentialsEmpty

/-- A value of the Go interface `error`, by dynamic type: the one error type
the repository declares, or an error made by the SDK (configuration loading,
transport, service), of which only the message is kept. -/
inductive GoError where
  | awsLocalCredentialsEmpty (e : AwsLocalCredentialsEmptyError) : GoError
  | sdk (msg : String) : GoError
  deriving DecidableEq, Repr

/-- The interface method `error.Error`, dispatched on the dynamic type. -/
def GoError.Error : GoError → String
  | .awsLocalCredentialsEmpty e => e.Error
  | .sdk msg => msg

/-! ## The credentials provider (lines 63-106) -/

/-- The struct `AwsLocalCredentialsProvider` (lines 65-67). -/
structure AwsLocalCredentialsProvider where
  Value : aws.Credentials
  deriving DecidableEq, Repr

/-- The constructor `NewAwsLocalCredentialsProvider` (lines 76-86); the fields
the literal does not name (`Source`, `Expires`) take their zero values. -/
def NewAwsLocalCredentialsProvider (key secret accountId : String) :
    AwsLocalCredentialsProvider :=
  { Value :=
      { AccessKeyID := key
        SecretAccessKey := secret
        AccountID := accountId
        SessionToken := ""
        CanExpire := false
        Source := ""
        Expires := Time.zero } }

/-- The constructor `NewDefaultAwsLocalCredentialsProvider` (lines 71-73). -/
def NewDefaultAwsLocalCredentialsProvider : AwsLocalCredentialsProvider :=
  NewAwsLocalCredentialsProvider AwsLocalAccessKey AwsLocalSecret AwsLocalAccountId

/-- The variables of one activation of `Retrieve`: the receiver `s`, which Go
passes by value, and the local `v`. -/
structure RetrieveFrame where
  s : AwsLocalCredentialsProvider
  v : aws.Credentials
  deriving DecidableEq, Repr

/-- The body of `Retrieve` (lines 89-102) run on receiver `s`: the frame as it
stands when the method returns, and the pair the method returns. -/
def RetrieveRun (_ctx : Context) (s : AwsLocalCredentialsProvider) :
    RetrieveFrame × (aws.Credentials × Option GoError) :=
  -- v := s.Value
  let fr : RetrieveFrame := { s := s, v := s.Value }
  if fr.v.AccessKeyID = "" ∨ fr.v.SecretAccessKey = "" then
    (fr, ({ aws.Credentials.zero with Source := AwsLocalCredentialsName },
          some (GoError.awsLocalCredentialsEmpty {})))
  else
    -- if len(v.Source) == 0 { v.Source = AwsLocalCredentialsName }
    let fr : RetrieveFrame :=
      if fr.v.Source.utf8ByteSize = 0 then
        { fr with v := { fr.v with Source := AwsLocalCredentialsName } }
      else fr
    (fr, (fr.v, none))

/-- The method `AwsLocalCredentialsProvider.Retrieve` (lines 89-102): the
credentials and the error (`none` for `nil`) it returns. -/
def AwsLocalCredentialsProvider.Retrieve (s : AwsLocalCredentialsProvider) (ctx : Context) :
    aws.Credentials × Option GoError :=
  (RetrieveRun ctx s).2

/-- The method `AwsLocalCredentialsProvider.IsExpired` (lines 104-106). -/
def AwsLocalCredentialsProvider.IsExpired (_s : AwsLocalCredentialsProvider) : Bool :=
  false

/-- The memory a call `p.Retrieve(ctx)` works on: the caller's variable `p`
and, once the method has been entered, the frame of the activation. -/
structure CallStore where
  p : AwsLocalCredentialsProvider
  frame : Option RetrieveFrame
  deriving DecidableEq, Repr

/-- The call `p.Retrieve(ctx)` on a store: the receiver is copied from the
caller's `p` into a fresh frame, the body runs on that frame, and the frame is
all the body can write to. -/
def CallStore.callRetrieve (st : CallStore) (ctx : Context) :
    CallStore × (aws.Credentials × Option GoError) :=
  let r := RetrieveRun ctx st.p
  ({ st with frame := some r.1 }, r.2)

/-! ## Panics -/

/-- The value a Go `panic` carries in this program: the error handed to
`panic(err)`, or the runtime error of dereferencing a nil pointer. -/
inductive PanicValue where
  | error (err : GoError) : PanicValue
  | nilDereference : PanicValue
  deriving DecidableEq, Repr

/-! ## SDK configuration (used by lines 23-58) -/

/-- A value of the SDK interface `aws.CredentialsProvider`, by dynamic type:
the provider of this repository or some other provider, known by name. -/
inductive aws.CredentialsProvider where
  | awsLocal (p : AwsLocalCredentialsProvider) : aws.CredentialsProvider
  | other (name : GoString) : aws.CredentialsProvider
  deriving DecidableEq, Repr

/-- The SDK struct `aws.Config`, cut down to the fields the program sets. -/
structure aws.Config where
  Region : GoString
  Credentials : Option aws.CredentialsProvider
  BaseEndpoint : Option GoString
  deriving DecidableEq, Repr

/-- The SDK struct `config.LoadOptions`, cut down to the fields the program sets. -/
structure config.LoadOptions where
  Region : String
  Credentials : Option aws.CredentialsProvider
  deriving DecidableEq, Repr

/-- A Go `func(*config.LoadOptions) error`: it may update the options it is
given, or fail. -/
abbrev config.LoadOptionsFunc : Type :=
  config.LoadOptions → Except GoError config.LoadOptions

/-- The SDK option `config.WithRegion`. -/
def config.WithRegion (v : String) : config.LoadOptionsFunc :=
  fun o => .ok { o with Region := v }

/-- The SDK option `config.WithCredentialsProvider`. -/
def config.WithCredentialsProvider (v : aws.CredentialsProvider) : config.LoadOptionsFunc :=
  fun o => .ok { o with Credentials := some v }

/-- What `config.LoadDefaultConfig` reads besides its arguments (environment
variables and the shared configuration files): whether resolving them fails,
and the region and endpoint they give. -/
structure Environment where
  failure : Option GoError
  Region : String
  BaseEndpoint : Option String
  deriving DecidableEq, Repr

/-- Applies the load options in order, stopping at the first that fails. -/
def config.applyOptions :
    List config.LoadOptionsFunc → config.LoadOptions → Except GoError config.LoadOptions
  | [], o => .ok o
  | fn :: fns, o =>
    match fn o with
    | .error err => .error err
    | .ok o1 => config.applyOptions fns o1

/-- The SDK function `config.LoadDefaultConfig`: the option functions are
applied in order to empty load options, an error of any of them or of the
environment is returned, and otherwise the configuration is resolved from the
options and the environment. -/
def config.LoadDefaultConfig (env : Environment) (_ctx : Context)
    (optFns : List config.LoadOptionsFunc) : Except GoError aws.Config :=
  match config.applyOptions optFns { Region := "", Credentials := none } with
  | .error err => .error err
  | .ok o =>
    match env.failure with
    | some err => .error err
    | none =>
      .ok { Region := if o.Region = "" then env.Region else o.Region
            Credentials := o.Credentials
            BaseEndpoint := env.BaseEndpoint }

/-- The function `NewAwsLocalConfig` (lines 24-39); `.error` is a panic. -/
def NewAwsLocalConfig (env : Environment) (ctx : Context)
    (accountId endpoint region key secret : String)
    (optFns : List config.LoadOptionsFunc) : Except PanicValue aws.Config :=
  let opts : List config.LoadOptionsFunc :=
    [ config.WithRegion region,
      config.WithCredentialsProvider
        (.awsLocal (NewAwsLocalCredentialsProvider key secret accountId)) ]
  let opts := opts ++ optFns
  match config.LoadDefaultConfig env ctx opts with
  | .error err => .error (PanicValue.error err)
  | .ok cfg => .ok { cfg with BaseEndpoint := aws.String endpoint }

/-- The function `NewDefaultAwsLocalConfig` (lines 42-51); `.error` is a panic. -/
def NewDefaultAwsLocalConfig (env : Environment) : Except PanicValue aws.Config :=
  match config.LoadDefaultConfig env Context.TODO
      [ config.WithRegion AwsLocalDefaultRegion,
        config.WithCredentialsProvider (.awsLocal NewDefaultAwsLocalCredentialsProvider) ] with
  | .error err => .error (PanicValue.error err)
  | .ok cfg => .ok { cfg with BaseEndpoint := aws.String AwsLocalEndpoint }

/-! ## The SQS client (used by lines 53-58 and 115-162) -/

/-- The SDK struct `sqs.Options`, cut down to the fields a configuration fills. -/
structure sqs.Options where
  Region : String
  Credentials : Option aws.CredentialsProvider
  BaseEndpoint : Option String
  deriving DecidableEq, Repr

/-- The SDK struct `sqs.Client`: a client is the options it was built with. -/
structure sqs.Client where
  options : sqs.Options
  deriving DecidableEq, Repr

/-- The SDK constructor `sqs.NewFromConfig`: the options are filled from the
configuration, then each option function is applied to them, in order. -/
def sqs.NewFromConfig (cfg : aws.Config) (optFns : List (sqs.Options → sqs.Options)) :
    sqs.Client :=
  let o : sqs.Options :=
    { Region := cfg.Region, Credentials := cfg.Credentials, BaseEndpoint := cfg.BaseEndpoint }
  { options := optFns.foldl (fun acc fn => fn acc) o }

/-- The function literal of lines 55-57: `o.BaseEndpoint = aws.String(AwsLocalEndpoint)`. -/
def NewAwsLocalSQS.optFn (o : sqs.Options) : sqs.Options :=
  { o with BaseEndpoint := aws.String AwsLocalEndpoint }

/-- The function `NewAwsLocalSQS` (lines 54-58). -/
def NewAwsLocalSQS (cfg : aws.Config) : sqs.Client :=
  sqs.NewFromConfig cfg [NewAwsLocalSQS.optFn]

/-! ## The queue operations the script calls -/

/-- The SDK struct `sqs.CreateQueueInput`, cut down to the field the script sets. -/
structure sqs.CreateQueueInput where
  QueueName : Option String
  deriving DecidableEq, Repr

/-- The SDK struct `sqs.CreateQueueOutput`, cut down to the field the script reads. -/
structure sqs.CreateQueueOutput where
  QueueUrl : Option String
  deriving DecidableEq, Repr

/-- The SDK struct `sqs.SendMessageInput`, cut down to the fields the script sets. -/
structure sqs.SendMessageInput where
  QueueUrl : Option String
  MessageBody : Option String
  deriving DecidableEq, Repr

/-- The SDK struct `sqs.SendMessageOutput`, cut down to the field the script reads. -/
structure sqs.SendMessageOutput where
  MessageId : Option String
  deriving DecidableEq, Repr

/-- The SDK struct `sqs.ReceiveMessageInput`, cut down to the field the script sets. -/
structure sqs.ReceiveMessageInput where
  QueueUrl : Option String
  deriving DecidableEq, Repr

/-- The SDK struct `types.Message`, cut down to the field the script reads. -/
structure sqs.Message where
  Body : Option String
  deriving DecidableEq, Repr

/-- The SDK struct `sqs.ReceiveMessageOutput`, cut down to the field the script reads. -/
structure sqs.ReceiveMessageOutput where
  Messages : List sqs.Message
  deriving DecidableEq, Repr

/-- The SDK struct `sqs.DeleteQueueInput`, cut down to the field the script sets. -/
structure sqs.DeleteQueueInput where
  QueueUrl : Option String
  deriving DecidableEq, Repr

/-- The SDK struct `sqs.DeleteQueueOutput`; the script ignores it. -/
structure sqs.DeleteQueueOutput where
  deriving DecidableEq, Repr

/-- The four client methods the script calls, over a state `σ` of the queue
service the client talks to. Each takes the client, a context and its input,
and gives back either an output (with a nil error) or an error, together with
the state of the service after the call. -/
structure sqs.Service (σ : Type) where
  CreateQueue : sqs.Client → Context → sqs.CreateQueueInput → σ →
    Except GoError sqs.CreateQueueOutput × σ
  SendMessage : sqs.Client → Context → sqs.SendMessageInput → σ →
    Except GoError sqs.SendMessageOutput × σ
  ReceiveMessage : sqs.Client → Context → sqs.ReceiveMessageInput → σ →
    Except GoError sqs.ReceiveMessageOutput × σ
  DeleteQueue : sqs.Client → Context → sqs.DeleteQueueInput → σ →
    Except GoError sqs.DeleteQueueOutput × σ

/-- The names of the four operations. -/
inductive sqs.Operation where
  | CreateQueue : sqs.Operation
  | SendMessage : sqs.Operation
  | ReceiveMessage : sqs.Operation
  | DeleteQueue : sqs.Operation
  deriving DecidableEq, Repr

/-- One call of a client method, as the script made it: the input it passed
and what the method returned. -/
inductive sqs.Call where
  | CreateQueue (params : sqs.CreateQueueInput)
      (result : Except GoError sqs.CreateQueueOutput) : sqs.Call
  | SendMessage (params : sqs.SendMessageInput)
      (result : Except GoError sqs.SendMessageOutput) : sqs.Call
  | ReceiveMessage (params : sqs.ReceiveMessageInput)
      (result : Except GoError sqs.ReceiveMessageOutput) : sqs.Call
  | DeleteQueue (params : sqs.DeleteQueueInput)
      (result : Except GoError sqs.DeleteQueueOutput) : sqs.Call

/-- The operation a call is a call of. -/
def sqs.Call.operation : sqs.Call → sqs.Operation
  | .CreateQueue _ _ => .CreateQueue
  | .SendMessage _ _ => .SendMessage
  | .ReceiveMessage _ _ => .ReceiveMessage
  | .DeleteQueue _ _ => .DeleteQueue

/-- The error a call returned, `none` when it returned a nil error. -/
def sqs.Call.err : sqs.Call → Option GoError
  | .CreateQueue _ (.error e) => some e
  | .SendMessage _ (.error e) => some e
  | .ReceiveMessage _ (.error e) => some e
  | .DeleteQueue _ (.error e) => some e
  | _ => none

/-- The `QueueUrl` field of the input of a call; `CreateQueue` has none. -/
def sqs.Call.QueueUrl : sqs.Call → Option (Option String)
  | .CreateQueue _ _ => none
  | .SendMessage params _ => some params.QueueUrl
  | .ReceiveMessage params _ => some params.QueueUrl
  | .DeleteQueue params _ => some params.QueueUrl

/-- Whether operation `op` was called in the list of calls. -/
def sqs.invoked (op : sqs.Operation) (calls : List sqs.Call) : Bool :=
  calls.any (fun c => decide (c.operation = op))

/-- Whether operation `op` was called in the list of calls and returned a nil error. -/
def sqs.succeeded (op : sqs.Operation) (calls : List sqs.Call) : Bool :=
  calls.any (fun c => decide (c.operation = op) && c.err.isNone)

/-- Whether operation `op` was called in the list of calls and returned an error. -/
def sqs.failed (op : sqs.Operation) (calls : List sqs.Call) : Bool :=
  calls.any (fun c => decide (c.operation = op) && c.err.isSome)

/-- The queue URL the `CreateQueue` call of the list returned, if it returned one. -/
def sqs.createdUrl : List sqs.Call → Option String
  | .CreateQueue _ (.ok out) :: _ => out.QueueUrl
  | _ => none

/-- The messages the successful `ReceiveMessage` calls of the list returned. -/
def sqs.receivedMessages : List sqs.Call → List sqs.Message
  | [] => []
  | .ReceiveMessage _ (.ok out) :: rest => out.Messages ++ sqs.receivedMessages rest
  | _ :: rest => sqs.receivedMessages rest

/-! ## The demonstration script (lines 115-162) -/

/-- What a run of `main` has done so far: the state of the queue service, the
client calls made (oldest first) and the lines written by `println`. -/
structure MainState (σ : Type) where
  world : σ
  calls : List sqs.Call
  printed : List String

/-- How a run of `main` ends: by returning or by a panic. -/
inductive Exit where
  | returned : Exit
  | panicked (v : PanicValue) : Exit
  deriving DecidableEq, Repr

/-- The loop of lines 151-153 over the messages left to print: the lines
printed, and whether every `*message.Body` could be dereferenced (the loop
stops at the first nil `Body`). -/
def printBodies : List sqs.Message → List String → List String × Bool
  | [], printed => (printed, true)
  | message :: rest, printed =>
    match message.Body with
    | none => (printed, false)
    | some body => printBodies rest (printed ++ ["Message Body: " ++ body])

/-- The function `main` (lines 115-162), run with a queue service `svc` in
state `world` and an environment `env` for the configuration loader. -/
def main {σ : Type} (svc : sqs.Service σ) (env : Environment) (world : σ) :
    MainState σ × Exit :=
  -- sqsClient := NewAwsLocalSQS(NewDefaultAwsLocalConfig())
  match NewDefaultAwsLocalConfig env with
  | .error v => ({ world := world, calls := [], printed := [] }, .panicked v)
  | .ok cfg =>
  let sqsClient := NewAwsLocalSQS cfg
  -- queueResp, err := sqsClient.CreateQueue(...)
  let createIn : sqs.CreateQueueInput := { QueueName := aws.String "test-queue" }
  match svc.CreateQueue sqsClient Context.TODO createIn world with
  | (.error err, w1) =>
    ({ world := w1, calls := [.CreateQueue createIn (.error err)], printed := [] },
      .panicked (.error err))
  | (.ok queueResp, w1) =>
  let calls1 : List sqs.Call := [.CreateQueue createIn (.ok queueResp)]
  -- println("Queue URL:", *queueResp.QueueUrl)
  match queueResp.QueueUrl with
  | none => ({ world := w1, calls := calls1, printed := [] }, .panicked .nilDereference)
  | some url =>
  let printed1 : List String := ["Queue URL: " ++ url]
  -- sendResp, err := sqsClient.SendMessage(...)
  let sendIn : sqs.SendMessageInput :=
    { QueueUrl := queueResp.QueueUrl, MessageBody := aws.String "Hello, world!" }
  match svc.SendMessage sqsClient Context.TODO sendIn w1 with
  | (.error err, w2) =>
    ({ world := w2, calls := calls1 ++ [.SendMessage sendIn (.error err)], printed := printed1 },
      .panicked (.error err))
  | (.ok sendResp, w2) =>
  let calls2 : List sqs.Call := calls1 ++ [.SendMessage sendIn (.ok sendResp)]
  -- println("Message ID:", *sendResp.MessageId)
  match sendResp.MessageId with
  | none => ({ world := w2, calls := calls2, printed := printed1 }, .panicked .nilDereference)
  | some messageId =>
  let printed2 : List String := printed1 ++ ["Message ID: " ++ messageId]
  -- receiveResp, err := sqsClient.ReceiveMessage(...)
  let receiveIn : sqs.ReceiveMessageInput := { QueueUrl := queueResp.QueueUrl }
  match svc.ReceiveMessage sqsClient Context.TODO receiveIn w2 with
  | (.error err, w3) =>
    ({ world := w3, calls := calls2 ++ [.ReceiveMessage receiveIn (.error err)],
       printed := printed2 },
      .panicked (.error err))
  | (.ok receiveResp, w3) =>
  let calls3 : List sqs.Call := calls2 ++ [.ReceiveMessage receiveIn (.ok receiveResp)]
  -- for _, message := range receiveResp.Messages { println("Message Body:", *message.Body) }
  match printBodies receiveResp.Messages printed2 with
  | (printed3, false) =>
    ({ world := w3, calls := calls3, printed := printed3 }, .panicked .nilDereference)
  | (printed3, true) =>
  -- _, err = sqsClient.DeleteQueue(...)
  let deleteIn : sqs.DeleteQueueInput := { QueueUrl := queueResp.QueueUrl }
  match svc.DeleteQueue sqsClient Context.TODO deleteIn w3 with
  | (.error err, w4) =>
    ({ world := w4, calls := calls3 ++ [.DeleteQueue deleteIn (.error err)],
       printed := printed3 },
      .panicked (.error err))
  | (.ok deleteResp, w4) =>
    ({ world := w4, calls := calls3 ++ [.DeleteQueue deleteIn (.ok deleteResp)],
       printed := printed3 },
      .returned)

/-! ## Sample inputs, for evaluating the definitions above -/

/-- An environment in which configuration loading succeeds and which sets
neither a region nor an endpoint. -/
def sampleEnvironment : Environment :=
  { failure := none, Region := "", BaseEndpoint := none }

/-- A queue service that answers each of the four operations with a fixed
result, whatever the input, and counts the requests it has served. -/
def scriptedService (create : Except GoError sqs.CreateQueueOutput)
    (send : Except GoError sqs.SendMessageOutput)
    (receive : Except GoError sqs.ReceiveMessageOutput)
    (delete : Except GoError sqs.DeleteQueueOutput) : sqs.Service Nat :=
  { CreateQueue := fun _ _ _ served => (create, served + 1)
    SendMessage := fun _ _ _ served => (send, served + 1)
    ReceiveMessage := fun _ _ _ served => (receive, served + 1)
    DeleteQueue := fun _ _ _ served => (delete, served + 1) }

/-! ## Lemmas on `Retrieve` -/

/-- A Go string has length zero exactly when it is the empty string. -/
theorem utf8ByteSize_eq_zero_iff (s : String) : s.utf8ByteSize = 0 ↔ s = "" := by
  constructor
  · intro h
    rcases s with ⟨cs⟩
    cases cs with
    | nil => rfl
    | cons c cs =>
      exfalso
      simp only [String.utf8ByteSize, String.utf8ByteSize.go] at h
      have := Char.utf8Size_pos c
      omega
  · rintro rfl
    rfl

/-- The failure branch of `Retrieve` (lines 91-95). -/
theorem RetrieveRun_of_empty (ctx : Context) (s : AwsLocalCredentialsProvider)
    (h : s.Value.AccessKeyID = "" ∨ s.Value.SecretAccessKey = "") :
    RetrieveRun ctx s =
      ({ s := s, v := s.Value },
        ({ aws.Credentials.zero with Source := AwsLocalCredentialsName },
          some (GoError.awsLocalCredentialsEmpty {}))) := by
  unfold RetrieveRun
  simp only [h, if_true]

/-- The success branch of `Retrieve` (lines 97-101). -/
theorem RetrieveRun_of_nonempty (ctx : Context) (s : AwsLocalCredentialsProvider)
    (hk : s.Value.AccessKeyID ≠ "") (hs : s.Value.SecretAccessKey ≠ "") :
    RetrieveRun ctx s =
      ({ s := s
         v := { s.Value with
                Source := if s.Value.Source = "" then AwsLocalCredentialsName
                          else s.Value.Source } },
        ({ s.Value with
           Source := if s.Value.Source = "" then AwsLocalCredentialsName
                     else s.Value.Source }, none)) := by
  unfold RetrieveRun
  have hno : ¬ (s.Value.AccessKeyID = "" ∨ s.Value.SecretAccessKey = "") := by
    rintro (h | h)
    · exact hk h
    · exact hs h
  simp only [hno, if_false, utf8ByteSize_eq_zero_iff]
  by_cases hsrc : s.Value.Source = ""
  · simp only [hsrc, if_true]
  · simp only [hsrc, if_false]

/-- On a provider built with empty key, secret and account id `Retrieve` fails. -/
theorem Retrieve_fails_at_empty :
    ((NewAwsLocalCredentialsProvider "" "" "").Retrieve Context.TODO).2 =
      some (GoError.awsLocalCredentialsEmpty {}) := by
  unfold AwsLocalCredentialsProvider.Retrieve
  rw [RetrieveRun_of_empty _ _ (Or.inl rfl)]

/-- The receiver of `Retrieve` is never written: the frame the method returns
from still holds the provider it was entered with. -/
theorem RetrieveRun_receiver (ctx : Context) (s : AwsLocalCredentialsProvider) :
    (RetrieveRun ctx s).1.s = s := by
  unfold RetrieveRun
  simp only
  split
  · rfl
  · split <;> rfl

/-- The context argument of `Retrieve` is not used. -/
theorem RetrieveRun_context (ctx ctx2 : Context) (s : AwsLocalCredentialsProvider) :
    RetrieveRun ctx s = RetrieveRun ctx2 s := rfl

/-! ## Claims on the credentials provider -/

/-- C1: for every key, secret and account id with key and secret non-empty,
`Retrieve` on `NewAwsLocalCredentialsProvider key secret accountId` returns a
nil error and credentials with `AccessKeyID = key`, `SecretAccessKey = secret`,
`AccountID = accountId`, `SessionToken = ""`, `CanExpire = false` and
`Source = "AwsLocalCredentials"` (and the zero `Expires`). -/
theorem C1_retrieve_returns_inputs (key secret accountId : String) (ctx : Context)
    (hk : key ≠ "") (hs : secret ≠ "") :
    (NewAwsLocalCredentialsProvider key secret accountId).Retrieve ctx =
      ({ AccessKeyID := key
         SecretAccessKey := secret
         AccountID := accountId
         SessionToken := ""
         CanExpire := false
         Source := "AwsLocalCredentials"
         Expires := Time.zero }, none) := by
  unfold AwsLocalCredentialsProvider.Retrieve
  rw [RetrieveRun_of_nonempty ctx _ hk hs]
  simp [NewAwsLocalCredentialsProvider, AwsLocalCredentialsName]

/-- C1 at key = "test", secret = "test", accountId = "000000000000". -/
theorem C1_retrieve_returns_inputs_witness :
    "test" ≠ "" ∧
    (NewAwsLocalCredentialsProvider "test" "test" "000000000000").Retrieve Context.Background =
      ({ AccessKeyID := "test"
         SecretAccessKey := "test"
         AccountID := "000000000000"
         SessionToken := ""
         CanExpire := false
         Source := "AwsLocalCredentials"
         Expires := Time.zero }, none) :=
  ⟨by decide,
    C1_retrieve_returns_inputs "test" "test" "000000000000" Context.Background
      (by decide) (by decide)⟩

/-- C2: for every provider whose held credentials have an empty `AccessKeyID`
or an empty `SecretAccessKey`, whatever the other fields hold, `Retrieve`
returns an error of type `AwsLocalCredentialsEmptyError` and credentials whose
`Source` is "AwsLocalCredentials" and whose other fields are all zero. -/
theorem C2_retrieve_empty_fails (s : AwsLocalCredentialsProvider) (ctx : Context)
    (h : s.Value.AccessKeyID = "" ∨ s.Value.SecretAccessKey = "") :
    s.Retrieve ctx =
      ({ Source := "AwsLocalCredentials"
         AccessKeyID := ""
         SecretAccessKey := ""
         AccountID := ""
         SessionToken := ""
         CanExpire := false
         Expires := Time.zero },
        some (GoError.awsLocalCredentialsEmpty {})) := by
  unfold AwsLocalCredentialsProvider.Retrieve
  rw [RetrieveRun_of_empty ctx s h]
  rfl

/-- C2 at a provider with an empty secret and every other field filled in. -/
theorem C2_retrieve_empty_fails_witness :
    AwsLocalCredentialsProvider.Retrieve
        { Value := { AccessKeyID := "key", SecretAccessKey := "", SessionToken := "token",
                     Source := "elsewhere", CanExpire := true,
                     Expires := { sec := 5, nsec := 7 }, AccountID := "123456789012" } }
        Context.TODO =
      ({ Source := "AwsLocalCredentials"
         AccessKeyID := ""
         SecretAccessKey := ""
         AccountID := ""
         SessionToken := ""
         CanExpire := false
         Expires := Time.zero },
        some (GoError.awsLocalCredentialsEmpty {})) :=
  C2_retrieve_empty_fails
    { Value := { AccessKeyID := "key", SecretAccessKey := "", SessionToken := "token",
                 Source := "elsewhere", CanExpire := true,
                 Expires := { sec := 5, nsec := 7 }, AccountID := "123456789012" } }
    Context.TODO (Or.inr rfl)

/-- C3: `IsExpired` returns false for every provider value and so depends on
no field of it; in particular it is false for a provider built by a struct
literal whose credentials have `CanExpire = true` and an `Expires` long past,
and for a provider on which `Retrieve` fails. -/
theorem C3_isExpired_always_false :
    (∀ s : AwsLocalCredentialsProvider, s.IsExpired = false) ∧
    (∀ s t : AwsLocalCredentialsProvider, s.IsExpired = t.IsExpired) ∧
    AwsLocalCredentialsProvider.IsExpired
      { Value := { AccessKeyID := "test", SecretAccessKey := "test", SessionToken := "",
                   Source := "", CanExpire := true, Expires := { sec := 1, nsec := 0 },
                   AccountID := "000000000000" } } = false ∧
    (((NewAwsLocalCredentialsProvider "" "" "").Retrieve Context.TODO).2 ≠ none ∧
      (NewAwsLocalCredentialsProvider "" "" "").IsExpired = false) := by
  refine ⟨fun _ => rfl, fun _ _ => rfl, rfl, ?_, rfl⟩
  rw [Retrieve_fails_at_empty]
  simp

/-- C4: `Retrieve` on `NewDefaultAwsLocalCredentialsProvider` returns a nil
error and `AccessKeyID = "test"`, `SecretAccessKey = "test"`,
`AccountID = "000000000000"`, `SessionToken = ""`, `CanExpire = false`,
`Source = "AwsLocalCredentials"`; and the default provider is
`NewAwsLocalCredentialsProvider AwsLocalAccessKey AwsLocalSecret AwsLocalAccountId`. -/
theorem C4_default_provider (ctx : Context) :
    NewDefaultAwsLocalCredentialsProvider.Retrieve ctx =
      ({ AccessKeyID := "test"
         SecretAccessKey := "test"
         AccountID := "000000000000"
         SessionToken := ""
         CanExpire := false
         Source := "AwsLocalCredentials"
         Expires := Time.zero }, none) ∧
    NewDefaultAwsLocalCredentialsProvider =
      NewAwsLocalCredentialsProvider AwsLocalAccessKey AwsLocalSecret AwsLocalAccountId ∧
    AwsLocalAccessKey = "test" ∧ AwsLocalSecret = "test" ∧
    AwsLocalAccountId = "000000000000" := by
  refine ⟨?_, rfl, rfl, rfl, rfl⟩
  unfold AwsLocalCredentialsProvider.Retrieve
  rw [RetrieveRun_of_nonempty ctx _ (by decide) (by decide)]
  rfl

/-- C5: whenever `Retrieve` returns an error, the `Error()` message of that
error is exactly "awslocal credentials are empty", the same for every failing
provider. -/
theorem C5_error_message (s : AwsLocalCredentialsProvider) (ctx : Context) (e : GoError)
    (h : (s.Retrieve ctx).2 = some e) :
    e.Error = "awslocal credentials are empty" := by
  unfold AwsLocalCredentialsProvider.Retrieve at h
  by_cases hempty : s.Value.AccessKeyID = "" ∨ s.Value.SecretAccessKey = ""
  · rw [RetrieveRun_of_empty ctx s hempty] at h
    simp only [Option.some.injEq] at h
    subst h
    rfl
  · rw [RetrieveRun_of_nonempty ctx s (fun hk => hempty (Or.inl hk))
      (fun hs => hempty (Or.inr hs))] at h
    simp at h

/-- C5 at key = "" and secret = "anything": `Retrieve` fails and the message
of its error is the static string. -/
theorem C5_error_message_witness :
    ((NewAwsLocalCredentialsProvider "" "anything" "000000000000").Retrieve Context.TODO).2 =
        some (GoError.awsLocalCredentialsEmpty {}) ∧
      (GoError.awsLocalCredentialsEmpty {}).Error = "awslocal credentials are empty" :=
  ⟨rfl,
    C5_error_message (NewAwsLocalCredentialsProvider "" "anything" "000000000000")
      Context.TODO (GoError.awsLocalCredentialsEmpty {}) rfl⟩

/-- C6: for every provider whose held credentials have non-empty `AccessKeyID`
and `SecretAccessKey`, `Retrieve` returns a nil error and the held credentials
with at most `Source` changed: an empty held `Source` is returned as
"AwsLocalCredentials", a non-empty one is returned as held, and `AccessKeyID`,
`SecretAccessKey`, `AccountID`, `SessionToken`, `CanExpire` and `Expires` are
returned as held. -/
theorem C6_retrieve_stamps_source (s : AwsLocalCredentialsProvider) (ctx : Context)
    (hk : s.Value.AccessKeyID ≠ "") (hs : s.Value.SecretAccessKey ≠ "") :
    (s.Retrieve ctx).2 = none ∧
    (s.Value.Source = "" → (s.Retrieve ctx).1.Source = "AwsLocalCredentials") ∧
    (s.Value.Source ≠ "" → (s.Retrieve ctx).1.Source = s.Value.Source) ∧
    (s.Retrieve ctx).1.AccessKeyID = s.Value.AccessKeyID ∧
    (s.Retrieve ctx).1.SecretAccessKey = s.Value.SecretAccessKey ∧
    (s.Retrieve ctx).1.AccountID = s.Value.AccountID ∧
    (s.Retrieve ctx).1.SessionToken = s.Value.SessionToken ∧
    (s.Retrieve ctx).1.CanExpire = s.Value.CanExpire ∧
    (s.Retrieve ctx).1.Expires = s.Value.Expires := by
  unfold AwsLocalCredentialsProvider.Retrieve
  rw [RetrieveRun_of_nonempty ctx s hk hs]
  refine ⟨rfl, ?_, ?_, rfl, rfl, rfl, rfl, rfl, rfl⟩
  · intro h
    simp only [h, if_true]
    rfl
  · intro h
    simp only [h, if_false]

/-- C6 at a provider whose held `Source` is already set: the label is kept. -/
theorem C6_retrieve_stamps_source_witness :
    (AwsLocalCredentialsProvider.Retrieve
        { Value := { AccessKeyID := "key", SecretAccessKey := "secret", SessionToken := "token",
                     Source := "elsewhere", CanExpire := true,
                     Expires := { sec := 5, nsec := 7 }, AccountID := "123456789012" } }
        Context.TODO).2 = none ∧
    (AwsLocalCredentialsProvider.Retrieve
        { Value := { AccessKeyID := "key", SecretAccessKey := "secret", SessionToken := "token",
                     Source := "elsewhere", CanExpire := true,
                     Expires := { sec := 5, nsec := 7 }, AccountID := "123456789012" } }
        Context.TODO).1.Source = "elsewhere" :=
  ⟨(C6_retrieve_stamps_source
      { Value := { AccessKeyID := "key", SecretAccessKey := "secret", SessionToken := "token",
                   Source := "elsewhere", CanExpire := true,
                   Expires := { sec := 5, nsec := 7 }, AccountID := "123456789012" } }
      Context.TODO (by decide) (by decide)).1,
    (C6_retrieve_stamps_source
      { Value := { AccessKeyID := "key", SecretAccessKey := "secret", SessionToken := "token",
                   Source := "elsewhere", CanExpire := true,
                   Expires := { sec := 5, nsec := 7 }, AccountID := "123456789012" } }
      Context.TODO (by decide) (by decide)).2.2.1 (by decide)⟩

/-- C7: `Retrieve` is a pure read. A call `p.Retrieve(ctx)` leaves the
caller's `p` as it was, and the receiver copy in the frame too (the source
label is stamped on the local copy that is returned, so a held empty `Source`
stays empty while the returned one is "AwsLocalCredentials"); a second call,
with any context, returns the same credentials and the same error. -/
theorem C7_retrieve_pure_read (st : CallStore) (ctx ctx2 : Context) :
    (st.callRetrieve ctx).1.p = st.p ∧
    (st.callRetrieve ctx).1.frame.map RetrieveFrame.s = some st.p ∧
    (st.callRetrieve ctx).2 = st.p.Retrieve ctx ∧
    ((st.callRetrieve ctx).1.callRetrieve ctx2).2 = (st.callRetrieve ctx).2 ∧
    st.p.Retrieve ctx = st.p.Retrieve ctx2 ∧
    (st.p.Value.AccessKeyID ≠ "" → st.p.Value.SecretAccessKey ≠ "" →
      st.p.Value.Source = "" →
        (st.callRetrieve ctx).2.1.Source = "AwsLocalCredentials" ∧
        (st.callRetrieve ctx).1.p.Value.Source = "") := by
  refine ⟨rfl, ?_, rfl, rfl, rfl, ?_⟩
  · simp only [CallStore.callRetrieve, Option.map_some', RetrieveRun_receiver]
  · intro hk hs hsrc
    refine ⟨?_, hsrc⟩
    simp only [CallStore.callRetrieve]
    rw [RetrieveRun_of_nonempty ctx st.p hk hs]
    simp only [hsrc, if_true]
    rfl

/-- C7 at the default provider: the returned label is stamped, the held one
stays empty, and the caller's provider is the default provider still. -/
theorem C7_retrieve_pure_read_witness :
    ((CallStore.callRetrieve { p := NewDefaultAwsLocalCredentialsProvider, frame := none }
        Context.TODO).2.1.Source = "AwsLocalCredentials" ∧
      (CallStore.callRetrieve { p := NewDefaultAwsLocalCredentialsProvider, frame := none }
        Context.TODO).1.p.Value.Source = "") ∧
    (CallStore.callRetrieve { p := NewDefaultAwsLocalCredentialsProvider, frame := none }
        Context.TODO).1.p = NewDefaultAwsLocalCredentialsProvider :=
  ⟨(C7_retrieve_pure_read { p := NewDefaultAwsLocalCredentialsProvider, frame := none }
      Context.TODO Context.Background).2.2.2.2.2 (by decide) (by decide) rfl,
    (C7_retrieve_pure_read { p := NewDefaultAwsLocalCredentialsProvider, frame := none }
      Context.TODO Context.Background).1⟩

/-- C8: `Retrieve` returns an error if and only if the held `AccessKeyID` is
empty or the held `SecretAccessKey` is empty; in particular a provider built
with non-empty key and secret and the account id "" succeeds and returns
credentials with an empty `AccountID`. -/
theorem C8_retrieve_fails_iff (s : AwsLocalCredentialsProvider) (ctx : Context) :
    ((s.Retrieve ctx).2 ≠ none ↔
      (s.Value.AccessKeyID = "" ∨ s.Value.SecretAccessKey = "")) ∧
    (∀ key secret : String, key ≠ "" → secret ≠ "" →
      ((NewAwsLocalCredentialsProvider key secret "").Retrieve ctx).2 = none ∧
      ((NewAwsLocalCredentialsProvider key secret "").Retrieve ctx).1.AccountID = "" ∧
      ((NewAwsLocalCredentialsProvider key secret "").Retrieve ctx).1.AccessKeyID = key ∧
      ((NewAwsLocalCredentialsProvider key secret "").Retrieve ctx).1.SecretAccessKey =
        secret) := by
  constructor
  · unfold AwsLocalCredentialsProvider.Retrieve
    by_cases hempty : s.Value.AccessKeyID = "" ∨ s.Value.SecretAccessKey = ""
    · rw [RetrieveRun_of_empty ctx s hempty]
      simp [hempty]
    · rw [RetrieveRun_of_nonempty ctx s (fun hk => hempty (Or.inl hk))
        (fun hs => hempty (Or.inr hs))]
      simp [hempty]
  · intro key secret hk hs
    unfold AwsLocalCredentialsProvider.Retrieve
    rw [RetrieveRun_of_nonempty ctx _ hk hs]
    exact ⟨rfl, rfl, rfl, rfl⟩

/-- C8 at key = "test", secret = "test" and an empty account id: `Retrieve`
succeeds with an empty `AccountID`; and at the default provider the
equivalence reads that no error is returned. -/
theorem C8_retrieve_fails_iff_witness :
    ((NewAwsLocalCredentialsProvider "test" "test" "").Retrieve Context.TODO).2 = none ∧
    ((NewAwsLocalCredentialsProvider "test" "test" "").Retrieve Context.TODO).1.AccountID = "" ∧
    ¬ ((NewDefaultAwsLocalCredentialsProvider.Retrieve Context.TODO).2 ≠ none) :=
  ⟨((C8_retrieve_fails_iff NewDefaultAwsLocalCredentialsProvider Context.TODO).2
      "test" "test" (by decide) (by decide)).1,
    ((C8_retrieve_fails_iff NewDefaultAwsLocalCredentialsProvider Context.TODO).2
      "test" "test" (by decide) (by decide)).2.1,
    fun h => absurd ((C8_retrieve_fails_iff NewDefaultAwsLocalCredentialsProvider
      Context.TODO).1.mp h) (by decide)⟩

/-! ## Claims on the configuration and the client -/

/-- When the environment resolves and no extra option is passed,
`NewAwsLocalConfig` returns a configuration, with the endpoint it was given. -/
theorem NewAwsLocalConfig_returns (env : Environment) (ctx : Context)
    (accountId endpoint region key secret : String) (henv : env.failure = none) :
    ∃ cfg, NewAwsLocalConfig env ctx accountId endpoint region key secret [] = .ok cfg := by
  simp [NewAwsLocalConfig, config.LoadDefaultConfig, config.applyOptions, config.WithRegion,
    config.WithCredentialsProvider, henv]

/-- C10: the option function `NewAwsLocalSQS` passes to the client constructor
sets `BaseEndpoint` to "http://localhost:4566" whatever options it is given,
so the client `NewAwsLocalSQS cfg` has that endpoint and is the same client
whatever `cfg.BaseEndpoint` is; a configuration returned by
`NewAwsLocalConfig` for an endpoint argument other than
"http://localhost:4566" has that argument as `BaseEndpoint`, while the client
built from it has "http://localhost:4566"; and `NewAwsLocalConfig` does
return a configuration when the environment resolves and no further option
is passed. -/
theorem C10_sqs_endpoint_fixed :
    (∀ o : sqs.Options, (NewAwsLocalSQS.optFn o).BaseEndpoint = some "http://localhost:4566") ∧
    (∀ cfg : aws.Config, (NewAwsLocalSQS cfg).options.BaseEndpoint =
      some "http://localhost:4566") ∧
    (∀ (cfg : aws.Config) (endpoint : Option String),
      NewAwsLocalSQS { cfg with BaseEndpoint := endpoint } = NewAwsLocalSQS cfg) ∧
    (∀ (env : Environment) (ctx : Context) (accountId endpoint region key secret : String)
      (optFns : List config.LoadOptionsFunc) (cfg : aws.Config),
      endpoint ≠ "http://localhost:4566" →
      NewAwsLocalConfig env ctx accountId endpoint region key secret optFns = .ok cfg →
        cfg.BaseEndpoint = some endpoint ∧
        (NewAwsLocalSQS cfg).options.BaseEndpoint = some "http://localhost:4566" ∧
        (NewAwsLocalSQS cfg).options.BaseEndpoint ≠ cfg.BaseEndpoint) ∧
    (∀ (env : Environment) (ctx : Context) (accountId endpoint region key secret : String),
      env.failure = none →
      ∃ cfg, NewAwsLocalConfig env ctx accountId endpoint region key secret [] = .ok cfg) := by
  refine ⟨fun _ => rfl, fun _ => rfl, fun _ _ => rfl, ?_, ?_⟩
  · intro env ctx accountId endpoint region key secret optFns cfg hne hcfg
    have hbase : cfg.BaseEndpoint = some endpoint := by
      unfold NewAwsLocalConfig at hcfg
      simp only at hcfg
      split at hcfg
      · cases hcfg
      · cases hcfg
        rfl
    refine ⟨hbase, rfl, ?_⟩
    rw [hbase]
    intro h
    apply hne
    have h2 : (NewAwsLocalSQS cfg).options.BaseEndpoint = some "http://localhost:4566" := rfl
    rw [h2] at h
    exact (Option.some.inj h).symm
  · intro env ctx accountId endpoint region key secret henv
    exact NewAwsLocalConfig_returns env ctx accountId endpoint region key secret henv

/-- C10 at the endpoint "http://localhost:9999": the configuration holds that
endpoint and the client built from it holds "http://localhost:4566". -/
theorem C10_sqs_endpoint_fixed_witness :
    NewAwsLocalConfig sampleEnvironment Context.TODO "000000000000" "http://localhost:9999"
        "eu-west-1" "test" "test" [] =
      .ok { Region := "eu-west-1"
            Credentials := some (.awsLocal
              (NewAwsLocalCredentialsProvider "test" "test" "000000000000"))
            BaseEndpoint := some "http://localhost:9999" } ∧
    (NewAwsLocalSQS
        { Region := "eu-west-1"
          Credentials := some (.awsLocal
            (NewAwsLocalCredentialsProvider "test" "test" "000000000000"))
          BaseEndpoint := some "http://localhost:9999" }).options.BaseEndpoint =
      some "http://localhost:4566" :=
  ⟨rfl,
    (C10_sqs_endpoint_fixed.2.2.2.1 sampleEnvironment Context.TODO "000000000000"
      "http://localhost:9999" "eu-west-1" "test" "test" []
      { Region := "eu-west-1"
        Credentials := some (.awsLocal
          (NewAwsLocalCredentialsProvider "test" "test" "000000000000"))
        BaseEndpoint := some "http://localhost:9999" }
      (by decide) rfl).2.1⟩

/-! ## Claims on the demonstration script -/

/-- The loop over the received messages runs to its end exactly when every
message has a non-nil `Body`. -/
theorem printBodies_completes (messages : List sqs.Message) (printed : List String) :
    (printBodies messages printed).2 = true ↔ ∀ m ∈ messages, m.Body.isSome = true := by
  induction messages generalizing printed with
  | nil => simp [printBodies]
  | cons message rest ih =>
    unfold printBodies
    cases hb : message.Body with
    | none => simp [hb]
    | some body => simp [hb, ih]

/-- A loop that stopped early met a message with a nil `Body`. -/
theorem printBodies_stopped {messages : List sqs.Message} {printed printed3 : List String}
    (h : printBodies messages printed = (printed3, false)) :
    ∃ m ∈ messages, m.Body = none := by
  have hc := printBodies_completes messages printed
  rw [h] at hc
  by_contra hno
  have hall : ∀ m ∈ messages, m.Body.isSome = true := by
    intro m hm
    cases hb : m.Body with
    | none => exact absurd ⟨m, hm, hb⟩ hno
    | some b => rfl
  exact absurd (hc.mpr hall) (by simp)

/-- A loop that ran to its end met only messages with a non-nil `Body`. -/
theorem printBodies_finished {messages : List sqs.Message} {printed printed3 : List String}
    (h : printBodies messages printed = (printed3, true)) :
    ∀ m ∈ messages, m.Body.isSome = true := by
  have hc := printBodies_completes messages printed
  rw [h] at hc
  exact hc.mp rfl

/-- What every run of `main` satisfies, stated on the pair `main` returns. -/
theorem main_run_spec {σ : Type} (svc : sqs.Service σ) (env : Environment) (world : σ)
    (st : MainState σ) (ex : Exit) (hrun : main svc env world = (st, ex)) :
    (st.calls.map sqs.Call.operation <+:
      [sqs.Operation.CreateQueue, sqs.Operation.SendMessage,
        sqs.Operation.ReceiveMessage, sqs.Operation.DeleteQueue]) ∧
    (∀ c ∈ st.calls, ∀ u, c.QueueUrl = some u →
      u = sqs.createdUrl st.calls ∧ u.isSome = true) ∧
    (∀ c ∈ st.calls, ∀ e, c.err = some e →
      st.calls.getLast? = some c ∧ ex = Exit.panicked (PanicValue.error e)) ∧
    (sqs.invoked sqs.Operation.DeleteQueue st.calls = true ↔
      (sqs.succeeded sqs.Operation.CreateQueue st.calls = true ∧
        sqs.succeeded sqs.Operation.SendMessage st.calls = true ∧
        sqs.succeeded sqs.Operation.ReceiveMessage st.calls = true ∧
        ∀ m ∈ sqs.receivedMessages st.calls, m.Body.isSome = true)) ∧
    ((sqs.failed sqs.Operation.SendMessage st.calls = true ∨
        sqs.failed sqs.Operation.ReceiveMessage st.calls = true) →
      sqs.invoked sqs.Operation.DeleteQueue st.calls = false) ∧
    (ex = Exit.returned ↔ sqs.succeeded sqs.Operation.DeleteQueue st.calls = true) := by
  unfold main at hrun
  simp only at hrun
  repeat' split at hrun
  all_goals cases hrun
  all_goals
    simp [sqs.invoked, sqs.succeeded, sqs.failed, sqs.Call.operation, sqs.Call.err,
      sqs.Call.QueueUrl, sqs.createdUrl, sqs.receivedMessages, *]
  · exact printBodies_stopped (by assumption)
  · exact printBodies_finished (by assumption)
  · exact printBodies_finished (by assumption)

/-- The configuration of `main` loads exactly when the environment resolves. -/
theorem NewDefaultAwsLocalConfig_loads (env : Environment) :
    (env.failure = none →
      NewDefaultAwsLocalConfig env =
        .ok { Region := "us-east-1"
              Credentials := some (.awsLocal NewDefaultAwsLocalCredentialsProvider)
              BaseEndpoint := some "http://localhost:4566" }) ∧
    (∀ e, env.failure = some e →
      NewDefaultAwsLocalConfig env = .error (PanicValue.error e)) := by
  constructor
  · intro h
    simp [NewDefaultAwsLocalConfig, config.LoadDefaultConfig, config.applyOptions,
      config.WithRegion, config.WithCredentialsProvider, h, AwsLocalDefaultRegion,
      aws.String, AwsLocalEndpoint]
  · intro e h
    simp [NewDefaultAwsLocalConfig, config.LoadDefaultConfig, config.applyOptions,
      config.WithRegion, config.WithCredentialsProvider, h]

/-- The run of `main`, path by path: what `main` returns for each way the
configuration loader and the four operations of `svc` can answer. Every call
`main` makes is a call of `svc`, on the state the previous call left, and the
call log records the result `svc` gave. -/
theorem main_paths {σ : Type} (svc : sqs.Service σ) (env : Environment) (world : σ) :
    (∀ v, NewDefaultAwsLocalConfig env = .error v →
      main svc env world = ({ world := world, calls := [], printed := [] }, .panicked v)) ∧
    (∀ cfg, NewDefaultAwsLocalConfig env = .ok cfg →
      (∀ e w1,
        svc.CreateQueue (NewAwsLocalSQS cfg) Context.TODO
          { QueueName := some "test-queue" } world = (.error e, w1) →
        main svc env world =
          ({ world := w1
             calls := [.CreateQueue { QueueName := some "test-queue" } (.error e)]
             printed := [] }, .panicked (.error e))) ∧
      (∀ q w1,
        svc.CreateQueue (NewAwsLocalSQS cfg) Context.TODO
          { QueueName := some "test-queue" } world = (.ok q, w1) →
        (q.QueueUrl = none →
          main svc env world =
            ({ world := w1
               calls := [.CreateQueue { QueueName := some "test-queue" } (.ok q)]
               printed := [] }, .panicked .nilDereference)) ∧
        (∀ url, q.QueueUrl = some url →
          (∀ e w2,
            svc.SendMessage (NewAwsLocalSQS cfg) Context.TODO
              { QueueUrl := some url, MessageBody := some "Hello, world!" } w1 =
                (.error e, w2) →
            main svc env world =
              ({ world := w2
                 calls :=
                   [.CreateQueue { QueueName := some "test-queue" } (.ok q),
                    .SendMessage { QueueUrl := some url, MessageBody := some "Hello, world!" }
                      (.error e)]
                 printed := ["Queue URL: " ++ url] }, .panicked (.error e))) ∧
          (∀ s w2,
            svc.SendMessage (NewAwsLocalSQS cfg) Context.TODO
              { QueueUrl := some url, MessageBody := some "Hello, world!" } w1 =
                (.ok s, w2) →
            (s.MessageId = none →
              main svc env world =
                ({ world := w2
                   calls :=
                     [.CreateQueue { QueueName := some "test-queue" } (.ok q),
                      .SendMessage { QueueUrl := some url, MessageBody := some "Hello, world!" }
                        (.ok s)]
                   printed := ["Queue URL: " ++ url] }, .panicked .nilDereference)) ∧
            (∀ messageId, s.MessageId = some messageId →
              (∀ e w3,
                svc.ReceiveMessage (NewAwsLocalSQS cfg) Context.TODO
                  { QueueUrl := some url } w2 = (.error e, w3) →
                main svc env world =
                  ({ world := w3
                     calls :=
                       [.CreateQueue { QueueName := some "test-queue" } (.ok q),
                        .SendMessage
                          { QueueUrl := some url, MessageBody := some "Hello, world!" } (.ok s),
                        .ReceiveMessage { QueueUrl := some url } (.error e)]
                     printed := ["Queue URL: " ++ url, "Message ID: " ++ messageId] },
                    .panicked (.error e))) ∧
              (∀ r w3,
                svc.ReceiveMessage (NewAwsLocalSQS cfg) Context.TODO
                  { QueueUrl := some url } w2 = (.ok r, w3) →
                ((∃ m ∈ r.Messages, m.Body = none) →
                  main svc env world =
                    ({ world := w3
                       calls :=
                         [.CreateQueue { QueueName := some "test-queue" } (.ok q),
                          .SendMessage
                            { QueueUrl := some url, MessageBody := some "Hello, world!" }
                            (.ok s),
                          .ReceiveMessage { QueueUrl := some url } (.ok r)]
                       printed :=
                         (printBodies r.Messages
                           ["Queue URL: " ++ url, "Message ID: " ++ messageId]).1 },
                      .panicked .nilDereference)) ∧
                ((∀ m ∈ r.Messages, m.Body.isSome = true) →
                  (∀ e w4,
                    svc.DeleteQueue (NewAwsLocalSQS cfg) Context.TODO
                      { QueueUrl := some url } w3 = (.error e, w4) →
                    main svc env world =
                      ({ world := w4
                         calls :=
                           [.CreateQueue { QueueName := some "test-queue" } (.ok q),
                            .SendMessage
                              { QueueUrl := some url, MessageBody := some "Hello, world!" }
                              (.ok s),
                            .ReceiveMessage { QueueUrl := some url } (.ok r),
                            .DeleteQueue { QueueUrl := some url } (.error e)]
                         printed :=
                           (printBodies r.Messages
                             ["Queue URL: " ++ url, "Message ID: " ++ messageId]).1 },
                        .panicked (.error e))) ∧
                  (∀ d w4,
                    svc.DeleteQueue (NewAwsLocalSQS cfg) Context.TODO
                      { QueueUrl := some url } w3 = (.ok d, w4) →
                    main svc env world =
                      ({ world := w4
                         calls :=
                           [.CreateQueue { QueueName := some "test-queue" } (.ok q),
                            .SendMessage
                              { QueueUrl := some url, MessageBody := some "Hello, world!" }
                              (.ok s),
                            .ReceiveMessage { QueueUrl := some url } (.ok r),
                            .DeleteQueue { QueueUrl := some url } (.ok d)]
                         printed :=
                           (printBodies r.Messages
                             ["Queue URL: " ++ url, "Message ID: " ++ messageId]).1 },
                        .returned))))))))) := by
  refine ⟨?_, ?_⟩
  · intro v hcfg
    simp [main, hcfg]
  · intro cfg hcfg
    refine ⟨?_, ?_⟩
    · intro e w1 h1
      simp [main, hcfg, aws.String, h1]
    · intro q w1 h1
      refine ⟨?_, ?_⟩
      · intro hq
        simp [main, hcfg, aws.String, h1, hq]
      · intro url hq
        refine ⟨?_, ?_⟩
        · intro e w2 h2
          simp [main, hcfg, aws.String, h1, hq, h2]
        · intro s w2 h2
          refine ⟨?_, ?_⟩
          · intro hs
            simp [main, hcfg, aws.String, h1, hq, h2, hs]
          · intro messageId hs
            refine ⟨?_, ?_⟩
            · intro e w3 h3
              simp [main, hcfg, aws.String, h1, hq, h2, hs, h3]
            · intro r w3 h3
              cases hpb : printBodies r.Messages
                ["Queue URL: " ++ url, "Message ID: " ++ messageId] with
              | mk printed3 completed =>
              have hc := printBodies_completes r.Messages
                ["Queue URL: " ++ url, "Message ID: " ++ messageId]
              rw [hpb] at hc
              refine ⟨?_, ?_⟩
              · rintro ⟨m, hm, hnil⟩
                have hfalse : completed = false := by
                  cases completed with
                  | false => rfl
                  | true =>
                    have := hc.mp rfl m hm
                    rw [hnil] at this
                    exact absurd this (by simp)
                subst hfalse
                simp [main, hcfg, aws.String, h1, hq, h2, hs, h3, hpb]
              · intro hall
                have htrue : completed = true := hc.mpr hall
                subst htrue
                refine ⟨?_, ?_⟩
                · intro e w4 h4
                  simp [main, hcfg, aws.String, h1, hq, h2, hs, h3, hpb, h4]
                · intro d w4 h4
                  simp [main, hcfg, aws.String, h1, hq, h2, hs, h3, hpb, h4]

/-- In terms of the service alone: `main` invokes DeleteQueue exactly when the
configuration loads, CreateQueue answers with a queue URL, SendMessage
(called with that URL on the state CreateQueue left) answers with a message
id, and ReceiveMessage (called with that URL on the state SendMessage left)
answers with messages that all have a `Body`. -/
theorem main_deletes_iff {σ : Type} (svc : sqs.Service σ) (env : Environment) (world : σ) :
    sqs.invoked sqs.Operation.DeleteQueue (main svc env world).1.calls = true ↔
      ∃ cfg q w1 url s w2 messageId r w3,
        NewDefaultAwsLocalConfig env = .ok cfg ∧
        svc.CreateQueue (NewAwsLocalSQS cfg) Context.TODO
          { QueueName := some "test-queue" } world = (.ok q, w1) ∧
        q.QueueUrl = some url ∧
        svc.SendMessage (NewAwsLocalSQS cfg) Context.TODO
          { QueueUrl := some url, MessageBody := some "Hello, world!" } w1 = (.ok s, w2) ∧
        s.MessageId = some messageId ∧
        svc.ReceiveMessage (NewAwsLocalSQS cfg) Context.TODO
          { QueueUrl := some url } w2 = (.ok r, w3) ∧
        ∀ m ∈ r.Messages, m.Body.isSome = true := by
  constructor
  · intro hinv
    cases hcfg : NewDefaultAwsLocalConfig env with
    | error v =>
      rw [(main_paths svc env world).1 v hcfg] at hinv
      simp [sqs.invoked] at hinv
    | ok cfg =>
    have p0 := (main_paths svc env world).2 cfg hcfg
    cases h1 : svc.CreateQueue (NewAwsLocalSQS cfg) Context.TODO
      { QueueName := some "test-queue" } world with
    | mk res1 w1 =>
    cases res1 with
    | error e =>
      rw [p0.1 e w1 h1] at hinv
      simp [sqs.invoked, sqs.Call.operation] at hinv
    | ok q =>
    have p1 := p0.2 q w1 h1
    cases hq : q.QueueUrl with
    | none =>
      rw [p1.1 hq] at hinv
      simp [sqs.invoked, sqs.Call.operation] at hinv
    | some url =>
    have p2 := p1.2 url hq
    cases h2 : svc.SendMessage (NewAwsLocalSQS cfg) Context.TODO
      { QueueUrl := some url, MessageBody := some "Hello, world!" } w1 with
    | mk res2 w2 =>
    cases res2 with
    | error e =>
      rw [p2.1 e w2 h2] at hinv
      simp [sqs.invoked, sqs.Call.operation] at hinv
    | ok s =>
    have p3 := p2.2 s w2 h2
    cases hs : s.MessageId with
    | none =>
      rw [p3.1 hs] at hinv
      simp [sqs.invoked, sqs.Call.operation] at hinv
    | some messageId =>
    have p4 := p3.2 messageId hs
    cases h3 : svc.ReceiveMessage (NewAwsLocalSQS cfg) Context.TODO
      { QueueUrl := some url } w2 with
    | mk res3 w3 =>
    cases res3 with
    | error e =>
      rw [p4.1 e w3 h3] at hinv
      simp [sqs.invoked, sqs.Call.operation] at hinv
    | ok r =>
    have p5 := p4.2 r w3 h3
    by_cases hall : ∀ m ∈ r.Messages, m.Body.isSome = true
    · exact ⟨cfg, q, w1, url, s, w2, messageId, r, w3, rfl, h1, hq, h2, hs, h3, hall⟩
    · have hex : ∃ m ∈ r.Messages, m.Body = none := by
        by_contra hno
        apply hall
        intro m hm
        cases hb : m.Body with
        | none => exact absurd ⟨m, hm, hb⟩ hno
        | some b => rfl
      rw [p5.1 hex] at hinv
      simp [sqs.invoked, sqs.Call.operation] at hinv
  · rintro ⟨cfg, q, w1, url, s, w2, messageId, r, w3, hcfg, h1, hq, h2, hs, h3, hall⟩
    have hp := ((((((((main_paths svc env world).2 cfg hcfg).2 q w1 h1).2 url hq).2
      s w2 h2).2 messageId hs).2 r w3 h3).2 hall)
    cases h4 : svc.DeleteQueue (NewAwsLocalSQS cfg) Context.TODO { QueueUrl := some url } w3 with
    | mk res w4 =>
      cases res with
      | error e =>
        rw [hp.1 e w4 h4]
        simp [sqs.invoked, sqs.Call.operation]
      | ok d =>
        rw [hp.2 d w4 h4]
        simp [sqs.invoked, sqs.Call.operation]

/-- C9, as the code has it. `main` calls the queue operations in the order
CreateQueue, SendMessage, ReceiveMessage, DeleteQueue: the calls made are a
prefix of that list, CreateQueue is called whenever the configuration loads
(which it does when the environment resolves), and each later operation is
called, on the state the previous call left, when the previous call returned
a result whose dereferenced pointer (`QueueUrl`, `MessageId`, every message
`Body`) is not nil. The call log records what the service returned. Every
call after CreateQueue is passed the queue URL CreateQueue returned. A call
that returns an error is the last call made and `main` panics with that
error; a nil pointer in a result makes `main` panic before the next call.
DeleteQueue is invoked if and only if CreateQueue, SendMessage and
ReceiveMessage all succeeded and every message ReceiveMessage returned has a
non-nil `Body`; on the service, if and only if the configuration loads and
the three operations answer with a non-nil `QueueUrl`, a non-nil `MessageId`
and messages that all have a `Body`. A failure of SendMessage or of
ReceiveMessage leaves DeleteQueue uninvoked, and `main` returns if and only
if DeleteQueue succeeded. -/
theorem C9_main_call_sequence {σ : Type} (svc : sqs.Service σ) (env : Environment)
    (world : σ) :
    ((main svc env world).1.calls.map sqs.Call.operation <+:
      [sqs.Operation.CreateQueue, sqs.Operation.SendMessage,
        sqs.Operation.ReceiveMessage, sqs.Operation.DeleteQueue]) ∧
    (∀ c ∈ (main svc env world).1.calls, ∀ u, c.QueueUrl = some u →
      u = sqs.createdUrl (main svc env world).1.calls ∧ u.isSome = true) ∧
    (∀ c ∈ (main svc env world).1.calls, ∀ e, c.err = some e →
      (main svc env world).1.calls.getLast? = some c ∧
      (main svc env world).2 = Exit.panicked (PanicValue.error e)) ∧
    (sqs.invoked sqs.Operation.DeleteQueue (main svc env world).1.calls = true ↔
      (sqs.succeeded sqs.Operation.CreateQueue (main svc env world).1.calls = true ∧
        sqs.succeeded sqs.Operation.SendMessage (main svc env world).1.calls = true ∧
        sqs.succeeded sqs.Operation.ReceiveMessage (main svc env world).1.calls = true ∧
        ∀ m ∈ sqs.receivedMessages (main svc env world).1.calls, m.Body.isSome = true)) ∧
    ((sqs.failed sqs.Operation.SendMessage (main svc env world).1.calls = true ∨
        sqs.failed sqs.Operation.ReceiveMessage (main svc env world).1.calls = true) →
      sqs.invoked sqs.Operation.DeleteQueue (main svc env world).1.calls = false) ∧
    ((main svc env world).2 = Exit.returned ↔
      sqs.succeeded sqs.Operation.DeleteQueue (main svc env world).1.calls = true) ∧
    (sqs.invoked sqs.Operation.DeleteQueue (main svc env world).1.calls = true ↔
      ∃ cfg q w1 url s w2 messageId r w3,
        NewDefaultAwsLocalConfig env = .ok cfg ∧
        svc.CreateQueue (NewAwsLocalSQS cfg) Context.TODO
          { QueueName := some "test-queue" } world = (.ok q, w1) ∧
        q.QueueUrl = some url ∧
        svc.SendMessage (NewAwsLocalSQS cfg) Context.TODO
          { QueueUrl := some url, MessageBody := some "Hello, world!" } w1 = (.ok s, w2) ∧
        s.MessageId = some messageId ∧
        svc.ReceiveMessage (NewAwsLocalSQS cfg) Context.TODO
          { QueueUrl := some url } w2 = (.ok r, w3) ∧
        ∀ m ∈ r.Messages, m.Body.isSome = true) ∧
    (env.failure = none →
      NewDefaultAwsLocalConfig env =
        .ok { Region := "us-east-1"
              Credentials := some (.awsLocal NewDefaultAwsLocalCredentialsProvider)
              BaseEndpoint := some "http://localhost:4566" }) ∧
    (∀ e, env.failure = some e →
      NewDefaultAwsLocalConfig env = .error (PanicValue.error e)) ∧
    (∀ v, NewDefaultAwsLocalConfig env = .error v →
      main svc env world = ({ world := world, calls := [], printed := [] }, .panicked v)) ∧
    (∀ cfg, NewDefaultAwsLocalConfig env = .ok cfg →
      (∀ e w1,
        svc.CreateQueue (NewAwsLocalSQS cfg) Context.TODO
          { QueueName := some "test-queue" } world = (.error e, w1) →
        main svc env world =
          ({ world := w1
             calls := [.CreateQueue { QueueName := some "test-queue" } (.error e)]
             printed := [] }, .panicked (.error e))) ∧
      (∀ q w1,
        svc.CreateQueue (NewAwsLocalSQS cfg) Context.TODO
          { QueueName := some "test-queue" } world = (.ok q, w1) →
        (q.QueueUrl = none →
          main svc env world =
            ({ world := w1
               calls := [.CreateQueue { QueueName := some "test-queue" } (.ok q)]
               printed := [] }, .panicked .nilDereference)) ∧
        (∀ url, q.QueueUrl = some url →
          (∀ e w2,
            svc.SendMessage (NewAwsLocalSQS cfg) Context.TODO
              { QueueUrl := some url, MessageBody := some "Hello, world!" } w1 =
                (.error e, w2) →
            main svc env world =
              ({ world := w2
                 calls :=
                   [.CreateQueue { QueueName := some "test-queue" } (.ok q),
                    .SendMessage { QueueUrl := some url, MessageBody := some "Hello, world!" }
                      (.error e)]
                 printed := ["Queue URL: " ++ url] }, .panicked (.error e))) ∧
          (∀ s w2,
            svc.SendMessage (NewAwsLocalSQS cfg) Context.TODO
              { QueueUrl := some url, MessageBody := some "Hello, world!" } w1 =
                (.ok s, w2) →
            (s.MessageId = none →
              main svc env world =
                ({ world := w2
                   calls :=
                     [.CreateQueue { QueueName := some "test-queue" } (.ok q),
                      .SendMessage { QueueUrl := some url, MessageBody := some "Hello, world!" }
                        (.ok s)]
                   printed := ["Queue URL: " ++ url] }, .panicked .nilDereference)) ∧
            (∀ messageId, s.MessageId = some messageId →
              (∀ e w3,
                svc.ReceiveMessage (NewAwsLocalSQS cfg) Context.TODO
                  { QueueUrl := some url } w2 = (.error e, w3) →
                main svc env world =
                  ({ world := w3
                     calls :=
                       [.CreateQueue { QueueName := some "test-queue" } (.ok q),
                        .SendMessage
                          { QueueUrl := some url, MessageBody := some "Hello, world!" } (.ok s),
                        .ReceiveMessage { QueueUrl := some url } (.error e)]
                     printed := ["Queue URL: " ++ url, "Message ID: " ++ messageId] },
                    .panicked (.error e))) ∧
              (∀ r w3,
                svc.ReceiveMessage (NewAwsLocalSQS cfg) Context.TODO
                  { QueueUrl := some url } w2 = (.ok r, w3) →
                ((∃ m ∈ r.Messages, m.Body = none) →
                  main svc env world =
                    ({ world := w3
                       calls :=
                         [.CreateQueue { QueueName := some "test-queue" } (.ok q),
                          .SendMessage
                            { QueueUrl := some url, MessageBody := some "Hello, world!" }
                            (.ok s),
                          .ReceiveMessage { QueueUrl := some url } (.ok r)]
                       printed :=
                         (printBodies r.Messages
                           ["Queue URL: " ++ url, "Message ID: " ++ messageId]).1 },
                      .panicked .nilDereference)) ∧
                ((∀ m ∈ r.Messages, m.Body.isSome = true) →
                  (∀ e w4,
                    svc.DeleteQueue (NewAwsLocalSQS cfg) Context.TODO
                      { QueueUrl := some url } w3 = (.error e, w4) →
                    main svc env world =
                      ({ world := w4
                         calls :=
                           [.CreateQueue { QueueName := some "test-queue" } (.ok q),
                            .SendMessage
                              { QueueUrl := some url, MessageBody := some "Hello, world!" }
                              (.ok s),
                            .ReceiveMessage { QueueUrl := some url } (.ok r),
                            .DeleteQueue { QueueUrl := some url } (.error e)]
                         printed :=
                           (printBodies r.Messages
                             ["Queue URL: " ++ url, "Message ID: " ++ messageId]).1 },
                        .panicked (.error e))) ∧
                  (∀ d w4,
                    svc.DeleteQueue (NewAwsLocalSQS cfg) Context.TODO
                      { QueueUrl := some url } w3 = (.ok d, w4) →
                    main svc env world =
                      ({ world := w4
                         calls :=
                           [.CreateQueue { QueueName := some "test-queue" } (.ok q),
                            .SendMessage
                              { QueueUrl := some url, MessageBody := some "Hello, world!" }
                              (.ok s),
                            .ReceiveMessage { QueueUrl := some url } (.ok r),
                            .DeleteQueue { QueueUrl := some url } (.ok d)]
                         printed :=
                           (printBodies r.Messages
                             ["Queue URL: " ++ url, "Message ID: " ++ messageId]).1 },
                        .returned))))))))) := by
  obtain ⟨horder, hurl, herr, hdel, hfail, hret⟩ :=
    main_run_spec svc env world (main svc env world).1 (main svc env world).2 rfl
  exact ⟨horder, hurl, herr, hdel, hfail, hret, main_deletes_iff svc env world,
    (NewDefaultAwsLocalConfig_loads env).1, (NewDefaultAwsLocalConfig_loads env).2,
    (main_paths svc env world).1, (main_paths svc env world).2⟩

/-- C9 on a service whose four operations all succeed: DeleteQueue is invoked
after four requests and `main` returns with the four calls logged in order;
and on a service whose SendMessage fails: DeleteQueue is not invoked. -/
theorem C9_main_call_sequence_witness :
    (sqs.invoked sqs.Operation.DeleteQueue
        (main (scriptedService (.ok { QueueUrl := some "http://localhost:4566/q" })
          (.ok { MessageId := some "1" }) (.ok { Messages := [{ Body := some "Hello, world!" }] })
          (.ok {})) sampleEnvironment 0).1.calls = true ∧
      (main (scriptedService (.ok { QueueUrl := some "http://localhost:4566/q" })
          (.ok { MessageId := some "1" }) (.ok { Messages := [{ Body := some "Hello, world!" }] })
          (.ok {})) sampleEnvironment 0).1.world = 4) ∧
    sqs.invoked sqs.Operation.DeleteQueue
        (main (scriptedService (.ok { QueueUrl := some "http://localhost:4566/q" })
          (.error (GoError.sdk "send failed"))
          (.ok { Messages := [{ Body := some "Hello, world!" }] })
          (.ok {})) sampleEnvironment 0).1.calls = false ∧
    main (scriptedService (.ok { QueueUrl := some "http://localhost:4566/q" })
        (.ok { MessageId := some "1" }) (.ok { Messages := [{ Body := some "Hello, world!" }] })
        (.ok {})) sampleEnvironment 0 =
      ({ world := 4
         calls :=
           [.CreateQueue { QueueName := some "test-queue" }
              (.ok { QueueUrl := some "http://localhost:4566/q" }),
            .SendMessage
              { QueueUrl := some "http://localhost:4566/q", MessageBody := some "Hello, world!" }
              (.ok { MessageId := some "1" }),
            .ReceiveMessage { QueueUrl := some "http://localhost:4566/q" }
              (.ok { Messages := [{ Body := some "Hello, world!" }] }),
            .DeleteQueue { QueueUrl := some "http://localhost:4566/q" } (.ok {})]
         printed :=
           (printBodies [{ Body := some "Hello, world!" }]
             ["Queue URL: " ++ "http://localhost:4566/q", "Message ID: " ++ "1"]).1 },
        .returned) := by
  have hok := C9_main_call_sequence
    (scriptedService (.ok { QueueUrl := some "http://localhost:4566/q" })
      (.ok { MessageId := some "1" }) (.ok { Messages := [{ Body := some "Hello, world!" }] })
      (.ok {})) sampleEnvironment 0
  have hsend := C9_main_call_sequence
    (scriptedService (.ok { QueueUrl := some "http://localhost:4566/q" })
      (.error (GoError.sdk "send failed"))
      (.ok { Messages := [{ Body := some "Hello, world!" }] })
      (.ok {})) sampleEnvironment 0
  obtain ⟨-, -, -, hdel, -, -, hrest⟩ := hok
  obtain ⟨-, -, -, -, hpaths⟩ := hrest
  obtain ⟨-, -, -, -, hfail, -⟩ := hsend
  refine ⟨⟨hdel.mpr (by decide), rfl⟩, hfail (Or.inl (by decide)), ?_⟩
  have hcreate := (hpaths
    { Region := "us-east-1"
      Credentials := some (.awsLocal NewDefaultAwsLocalCredentialsProvider)
      BaseEndpoint := some "http://localhost:4566" } rfl).2
    { QueueUrl := some "http://localhost:4566/q" } 1 rfl
  have hsent := (hcreate.2 "http://localhost:4566/q" rfl).2 { MessageId := some "1" } 2 rfl
  have hreceived := (hsent.2 "1" rfl).2 { Messages := [{ Body := some "Hello, world!" }] } 3 rfl
  exact (hreceived.2 (by decide)).2 {} 4 rfl

/-- C9 as stated fails: on a service whose CreateQueue, SendMessage and
ReceiveMessage succeed and whose ReceiveMessage returns a message with a nil
`Body`, all three calls succeeded, yet `main` panics on dereferencing the nil
`Body` after three requests and DeleteQueue is not invoked. -/
theorem C9_counterexample_nil_body :
    ¬ (sqs.invoked sqs.Operation.DeleteQueue
          (main (scriptedService (.ok { QueueUrl := some "http://localhost:4566/q" })
            (.ok { MessageId := some "1" }) (.ok { Messages := [{ Body := none }] })
            (.ok {})) sampleEnvironment 0).1.calls = true ↔
        (sqs.succeeded sqs.Operation.CreateQueue
            (main (scriptedService (.ok { QueueUrl := some "http://localhost:4566/q" })
              (.ok { MessageId := some "1" }) (.ok { Messages := [{ Body := none }] })
              (.ok {})) sampleEnvironment 0).1.calls = true ∧
          sqs.succeeded sqs.Operation.SendMessage
            (main (scriptedService (.ok { QueueUrl := some "http://localhost:4566/q" })
              (.ok { MessageId := some "1" }) (.ok { Messages := [{ Body := none }] })
              (.ok {})) sampleEnvironment 0).1.calls = true ∧
          sqs.succeeded sqs.Operation.ReceiveMessage
            (main (scriptedService (.ok { QueueUrl := some "http://localhost:4566/q" })
              (.ok { MessageId := some "1" }) (.ok { Messages := [{ Body := none }] })
              (.ok {})) sampleEnvironment 0).1.calls = true)) ∧
    (main (scriptedService (.ok { QueueUrl := some "http://localhost:4566/q" })
        (.ok { MessageId := some "1" }) (.ok { Messages := [{ Body := none }] })
        (.ok {})) sampleEnvironment 0).2 = Exit.panicked PanicValue.nilDereference ∧
    (main (scriptedService (.ok { QueueUrl := some "http://localhost:4566/q" })
        (.ok { MessageId := some "1" }) (.ok { Messages := [{ Body := none }] })
        (.ok {})) sampleEnvironment 0).1.world = 3 := by
  refine ⟨?_, rfl, rfl⟩
  decide

end CredentialProvider
